import Mathlib

/-!
# Verification of the bfxr2-mcp sound-generation session layer

Shallow embedding of `src/server.js` (the MCP dispatcher together with the
`BfxrWrapper` class it imports).  JS numbers are modelled as rationals `ℚ`;
the global `Math.random` slot is modelled explicitly, since
`BfxrWrapper.randomizeSound` reassigns it; JS exceptions are modelled with
`Except`, threaded together with the mutated state (JS state mutations
survive a throw, so every fallible operation returns the state it left
behind alongside its outcome).

The third-party `bfxr2` engine (loaded from `node_modules`, not part of this
repository) is out of scope per the spec; its capabilities are modelled from
the spec's Synthesis Engine Adapter interface, parameterized by an
`EngineModel` so every theorem quantifies over the engine where the engine's
behavior is not pinned down.
-/

namespace Bfxr2Mcp

/-- A rendered sound handle.  The spec's CurrentSound records the parameter
set the sound was rendered from; the handle itself is opaque, so we keep
exactly that observable. -/
structure Sound where
  paramsUsed : List (String × ℚ)
  deriving DecidableEq

/-- The global `Math.random` slot.  `ambient` is the default entropy source;
`lcg st` is the seeded closure installed by `BfxrWrapper.randomizeSound`
(its captured `seedValue` being `st`). -/
inductive MathRandom where
  | ambient : MathRandom
  | lcg (state : ℚ) : MathRandom
  deriving DecidableEq

/-- JS truncation toward zero, as used by the JS `%` operator. -/
def jsTrunc (q : ℚ) : ℤ :=
  if q < 0 then Rat.ceil q else Rat.floor q

/-- The JS remainder `a % n` on numbers: `a - n * trunc (a / n)`. -/
def jsMod (a n : ℚ) : ℚ :=
  a - n * (jsTrunc (a / n) : ℚ)

/-- One step of the seeded generator installed by `randomizeSound`:
`seedValue = (seedValue * 9301 + 49297) % 233280`. -/
def lcgStep (st : ℚ) : ℚ :=
  jsMod (st * 9301 + 49297) 233280

/-- The process state visible to the wrapper: the `Math.random` slot, a
cursor into the ambient entropy stream, the engine's parameter state
(`this.bfxr.params`) and the current sound (`this.bfxr.sound`). -/
structure WState where
  mathRandom : MathRandom
  ambientIdx : Nat
  params : List (String × ℚ)
  sound : Option Sound
  deriving DecidableEq

/-- One call of `Math.random()`: the ambient source consumes the ambient
stream; the installed seeded closure advances its captured `seedValue` and
returns `seedValue / 233280`. -/
def drawRand (amb : Nat → ℚ) (σ : WState) : ℚ × WState :=
  match σ.mathRandom with
  | .ambient => (amb σ.ambientIdx, { σ with ambientIdx := σ.ambientIdx + 1 })
  | .lcg st =>
      let st' := lcgStep st
      (st' / 233280, { σ with mathRandom := .lcg st' })

/-- `n` successive calls of `Math.random()`. -/
def drawN (amb : Nat → ℚ) : Nat → WState → List ℚ × WState
  | 0, σ => ([], σ)
  | n + 1, σ =>
      let p := drawRand amb σ
      let q := drawN amb n p.2
      (p.1 :: q.1, q.2)

/-- The errors the wrapper and dispatcher can raise. -/
inductive JsError where
  | unknownSoundType (type : String)
  | validation (field : String)
  | noSound
  | unknownTool (name : String)
  | typeError
  deriving DecidableEq

/-- The `message` property of each thrown error, as built by the source
(`new Error(...)` strings), with the ValidationError message modelled from
the spec. -/
def JsError.message : JsError → String
  | .unknownSoundType t => "Unknown sound type: " ++ t
  | .validation f => "ValidationError: parameter out of range: " ++ f
  | .noSound => "No sound generated yet"
  | .unknownTool n => "Unknown tool: " ++ n
  | .typeError => "TypeError"

/-- The preset tags of `BfxrWrapper.generateSoundEffect`. -/
inductive PresetTag where
  | pickup | laser | explosion | powerup | hit | jump | blip
  deriving DecidableEq

/-- The `switch (type)` of `generateSoundEffect`: which engine preset
routine a type string selects, `none` falling through to the
`Unknown sound type` throw. -/
def presetFor : String → Option PresetTag
  | "pickup" => some .pickup
  | "laser" => some .laser
  | "explosion" => some .explosion
  | "powerup" => some .powerup
  | "hit" => some .hit
  | "jump" => some .jump
  | "blip" => some .blip
  | _ => none

/-- Modelled from the spec: the Synthesis Engine Adapter interface
(engine capabilities live in the external `bfxr2` package, not in this
repository).  `defaults` is the baseline `reset_params` restores;
`presetFn` is the engine-native preset routine (`generate_laser_shoot`
etc.); `randomizeAll` is modelled by `nDraws` (how many `Math.random()`
values `randomize_params` consumes, in a fixed deterministic order) and
`randFn` (the parameter state built from those draws); `encodeLen` is the
byte length of the WAV encoding of a sound. -/
structure EngineModel where
  defaults : List (String × ℚ)
  presetFn : PresetTag → List (String × ℚ) → List (String × ℚ)
  nDraws : Nat
  randFn : List ℚ → List (String × ℚ)
  encodeLen : Sound → Nat

/-- Association-list update: set key `k` to `v`, overwriting an existing
binding. -/
def setKV (k : String) (v : ℚ) : List (String × ℚ) → List (String × ℚ)
  | [] => [(k, v)]
  | (k', v') :: rest =>
      if k' = k then (k, v) :: rest else (k', v') :: setKV k v rest

/-- Association-list lookup. -/
def lookupKV (k : String) : List (String × ℚ) → Option ℚ
  | [] => none
  | (k', v') :: rest => if k' = k then some v' else lookupKV k rest

/-- The Parameter Model's declared ranges (spec section 3); `none` for a
key the model does not know. -/
def paramRange : String → Option (ℚ × ℚ)
  | "waveType" => some (0, 11)
  | "frequency_start" => some (0, 1)
  | "frequency_slide" => some (mkRat (-1) 2, mkRat 1 2)
  | "attackTime" => some (0, 1)
  | "sustainTime" => some (0, 1)
  | "decayTime" => some (mkRat 3 100, 1)
  | "vibratoDepth" => some (0, 1)
  | "vibratoSpeed" => some (0, 1)
  | _ => none

/-- Whether a known parameter value satisfies its declared range
(`waveType` additionally being an integer). -/
def inRange (k : String) (v : ℚ) : Bool :=
  match paramRange k with
  | none => true
  | some (lo, hi) => decide (lo ≤ v) && decide (v ≤ hi) &&
      (decide (k ≠ "waveType") || decide (v.den = 1))

/-- Modelled from the spec: the engine's `set_param` (in the external
`bfxr2` package).  Per spec 4.1/3, a known key outside its declared range
is a validation error and the parameter state is untouched; unknown keys
are silently ignored (allowed by the spec). -/
def set_param (k : String) (v : ℚ) (σ : WState) : WState × Except JsError Unit :=
  match paramRange k with
  | none => (σ, .ok ())
  | some _ =>
      if inRange k v then
        ({ σ with params := setKV k v σ.params }, .ok ())
      else
        (σ, .error (.validation k))

/-- Modelled from the spec: the engine's `reset_params` restores the
parameter state to its baseline. -/
def reset_params (E : EngineModel) (σ : WState) : WState :=
  { σ with params := E.defaults }

/-- Modelled from the spec: the engine's `randomize_params` consumes the
random source (`Math.random`) in a fixed deterministic order and replaces
the parameter state with a function of the drawn values. -/
def randomize_params (E : EngineModel) (amb : Nat → ℚ) (σ : WState) : WState :=
  let p := drawN amb E.nDraws σ
  { p.2 with params := E.randFn p.1 }

/-- Modelled from the spec: the engine's `generate_sound` renders the
current parameter state deterministically and stores the result in
`this.bfxr.sound`. -/
def generate_sound (σ : WState) : WState :=
  { σ with sound := some ⟨σ.params⟩ }

/-- The `for (const [key, value] of Object.entries(...)) set_param` loop of
the wrapper: parameters are applied one at a time, stopping at the first
failure (the JS exception aborts the loop, keeping the mutations made so
far). -/
def applyParams : List (String × ℚ) → WState → WState × Except JsError Unit
  | [], σ => (σ, .ok ())
  | (k, v) :: rest, σ =>
      match set_param k v σ with
      | (σ', .ok _) => applyParams rest σ'
      | (σ', .error e) => (σ', .error e)

/-- `BfxrWrapper.generateSoundEffect(type, customParams)`:
`reset_params()`; the `switch (type)` selecting the preset routine (an
unrecognized type throws after the reset already happened); the
`set_param` loop over `customParams`; `generate_sound()`. -/
def generateSoundEffect (E : EngineModel) (type : String)
    (customParams : List (String × ℚ)) (σ : WState) :
    WState × Except JsError Unit :=
  let σ1 := reset_params E σ
  match presetFor type with
  | none => (σ1, .error (.unknownSoundType type))
  | some tag =>
      let σ2 := { σ1 with params := E.presetFn tag σ1.params }
      match applyParams customParams σ2 with
      | (σ3, .error e) => (σ3, .error e)
      | (σ3, .ok _) => (generate_sound σ3, .ok ())

/-- `BfxrWrapper.createCustomSound(parameters)`: `reset_params()`; the
`set_param` loop over all parameters; `generate_sound()`. -/
def createCustomSound (E : EngineModel) (parameters : List (String × ℚ))
    (σ : WState) : WState × Except JsError Unit :=
  let σ1 := reset_params E σ
  match applyParams parameters σ1 with
  | (σ2, .error e) => (σ2, .error e)
  | (σ2, .ok _) => (generate_sound σ2, .ok ())

/-- `BfxrWrapper.randomizeSound(seed)`: when `seed !== undefined`,
`Math.random` is reassigned to the seeded closure (there is no save or
restore of the previous source anywhere in the function); then
`randomize_params()` and `generate_sound()`. -/
def randomizeSound (E : EngineModel) (amb : Nat → ℚ) (seed : Option ℚ)
    (σ : WState) : WState :=
  let σ1 :=
    match seed with
    | some s => { σ with mathRandom := .lcg s }
    | none => σ
  generate_sound (randomize_params E amb σ1)

/-- `BfxrWrapper.getCurrentParameters()`: returns `this.bfxr.params`, the
engine's live parameter state. -/
def getCurrentParameters (σ : WState) : List (String × ℚ) :=
  σ.params

/-- A preset catalog entry. -/
structure PresetInfo where
  name : String
  description : String
  deriving DecidableEq

/-- `BfxrWrapper.getPresets()`: the static preset catalog. -/
def getPresets : List PresetInfo :=
  [⟨"pickup", "Pickup/Coin sounds"⟩,
   ⟨"laser", "Laser/Shoot sounds"⟩,
   ⟨"explosion", "Explosion sounds"⟩,
   ⟨"powerup", "Powerup sounds"⟩,
   ⟨"hit", "Hit/Hurt sounds"⟩,
   ⟨"jump", "Jump sounds"⟩,
   ⟨"blip", "UI/Select sounds"⟩]

/-- The text rendering of a JS number whose property lookup may have
returned `undefined` (template interpolation prints `undefined` rather than
throwing). -/
def jsShow (v : Option ℚ) : String :=
  match v with
  | some q => toString q
  | none => "undefined"

/-- `Number.prototype.toFixed(2)`, modelled up to the exact IEEE rounding
mode: two decimal digits, rounding half up.  No claim depends on the
rounding behavior. -/
def toFixed2 (q : ℚ) : String :=
  let n : ℤ := Rat.floor (q * 100 + 1/2)
  let sign := if n < 0 then "-" else ""
  let m := n.natAbs
  sign ++ toString (m / 100) ++ "." ++
    (if m % 100 < 10 then "0" else "") ++ toString (m % 100)

/-- `saveWavFile(filePath, type)` from `server.js`: `getWavData()` throws
`No sound generated yet` when `this.bfxr.sound` is unset; otherwise the
WAV bytes are written and the summary message built.  The file write itself
is out of scope; the message reports the encoded byte length. -/
def saveWavFile (E : EngineModel) (filePath typeStr : String) (σ : WState) :
    Except JsError String :=
  match σ.sound with
  | none => .error .noSound
  | some snd =>
      .ok ("Generated " ++ typeStr ++ " sound!\nSaved to: " ++ filePath ++
        "\nFile size: " ++ toString (E.encodeLen snd) ++ " bytes")

/-- The `get_parameters` summary text.  The handler reads
`musicGenerator.getCurrentParameters()` — the engine's live parameter
state — and formats it; a `.toFixed` call on a missing property throws a
`TypeError`. -/
def getParamsText (σ : WState) : Except JsError String :=
  let ps := getCurrentParameters σ
  match lookupKV "frequency_start" ps, lookupKV "attackTime" ps,
      lookupKV "sustainTime" ps, lookupKV "decayTime" ps with
  | some freq, some att, some sus, some dec =>
      let vib :=
        match lookupKV "vibratoDepth" ps with
        | some d =>
            if 0 < d then toString d ++ " @ " ++ jsShow (lookupKV "vibratoSpeed" ps)
            else "none"
        | none => "none"
      let slide :=
        match lookupKV "frequency_slide" ps with
        | some s => if s ≠ 0 then toString s else "none"
        | none => "undefined"
      .ok ("Current sound parameters:\nWave: " ++ jsShow (lookupKV "waveType" ps) ++
        " | Freq: " ++ toFixed2 freq ++
        "\nEnvelope: A" ++ toFixed2 att ++ " S" ++ toFixed2 sus ++ " D" ++ toFixed2 dec ++
        "\nVibrato: " ++ vib ++ " | Slide: " ++ slide)
  | _, _, _, _ => .error .typeError

/-- The type tag passed to `saveWavFile` by the `randomize_sound` case:
`random` followed by the seed echo, which the source guards with JS
truthiness (`seed ? ... : ''`), so a seed of `0` is not echoed. -/
def seedTag (seed : Option ℚ) : String :=
  match seed with
  | some s => if s ≠ 0 then " (seed: " ++ toString s ++ ")" else ""
  | none => ""

/-- The six tool calls the dispatcher recognizes, plus an unrecognized
name (the `default` branch). -/
inductive ToolCall where
  | generateTool (type : String) (customParams : List (String × ℚ)) (filepath : String)
  | createTool (parameters : List (String × ℚ)) (filepath : String)
  | randomizeTool (seed : Option ℚ) (filepath : String)
  | exportTool (filepath : String)
  | getParamsTool
  | listPresetsTool
  | unknownName (name : String)

/-- The body of the `switch (name)` inside the dispatcher's `try` block:
the state it leaves behind and either the success text or the error that
was thrown.  The `export_wav` case returns its guidance text as a normal
(non-thrown) result when no sound exists. -/
def dispatchBody (E : EngineModel) (amb : Nat → ℚ) (call : ToolCall)
    (σ : WState) : WState × Except JsError String :=
  match call with
  | .generateTool type custom fp =>
      match generateSoundEffect E type custom σ with
      | (σ', .error e) => (σ', .error e)
      | (σ', .ok _) => (σ', saveWavFile E fp type σ')
  | .createTool ps fp =>
      match createCustomSound E ps σ with
      | (σ', .error e) => (σ', .error e)
      | (σ', .ok _) => (σ', saveWavFile E fp "custom" σ')
  | .randomizeTool seed fp =>
      let σ' := randomizeSound E amb seed σ
      (σ', saveWavFile E fp ("random" ++ seedTag seed) σ')
  | .exportTool fp =>
      if σ.sound = none then
        (σ, .ok "No sound generated yet. Please generate a sound first.")
      else
        (σ, saveWavFile E fp "exported" σ)
  | .getParamsTool => (σ, getParamsText σ)
  | .listPresetsTool =>
      (σ, .ok ("Available presets:\n" ++
        String.intercalate "\n"
          (getPresets.map fun p => "• " ++ p.name ++ ": " ++ p.description)))
  | .unknownName n => (σ, .error (.unknownTool n))

/-- The protocol response shape: the text content and the `isError` flag
(absent, i.e. `false`, on the success path). -/
structure Response where
  text : String
  isError : Bool
  deriving DecidableEq

/-- The full dispatcher (`CallToolRequestSchema` handler): the `try/catch`
around `dispatchBody`.  A thrown error is converted into a response with
`isError: true` whose text carries the error message (the appended stack
trace is unobservable here and omitted); nothing propagates out, so no
operation error terminates the process. -/
def handleToolCall (E : EngineModel) (amb : Nat → ℚ) (call : ToolCall)
    (σ : WState) : WState × Response :=
  match dispatchBody E amb call σ with
  | (σ', .ok msg) => (σ', ⟨msg, false⟩)
  | (σ', .error e) => (σ', ⟨"Error: " ++ e.message, true⟩)

/-- Whether `pat` occurs at the head of `text`. -/
def matchesAt : List Char → List Char → Bool
  | _, [] => true
  | [], _ :: _ => false
  | c :: cs, p :: ps => c == p && matchesAt cs ps

/-- Whether `pat` occurs anywhere in `text`. -/
def containsChars (pat : List Char) : List Char → Bool
  | [] => matchesAt [] pat
  | c :: cs => matchesAt (c :: cs) pat || containsChars pat cs

/-- Substring test used to state facts about response texts. -/
def containsStr (s pat : String) : Bool :=
  containsChars pat.data s.data

/-- Modelled from the spec: a fresh process starts with the ambient
`Math.random`, the engine's baseline parameter state, and no sound. -/
def initialState (E : EngineModel) : WState :=
  ⟨.ambient, 0, E.defaults, none⟩

/-- A concrete engine instance used to evaluate the development on
concrete inputs (the real engine lives outside this repository). -/
def sampleEngine : EngineModel where
  defaults := [("waveType", 0), ("frequency_start", mkRat 3 10), ("frequency_slide", 0),
    ("attackTime", 0), ("sustainTime", mkRat 1 10), ("decayTime", mkRat 2 5),
    ("vibratoDepth", 0), ("vibratoSpeed", 0)]
  presetFn := fun tag ps =>
    match tag with
    | .laser => setKV "frequency_start" (mkRat 4 5) ps
    | .pickup => setKV "frequency_start" (mkRat 3 5) ps
    | _ => ps
  nDraws := 2
  randFn := fun vs =>
    [("waveType", 1), ("frequency_start", vs.headD 0),
     ("decayTime", (vs.drop 1).headD (mkRat 1 2))]
  encodeLen := fun _ => 4096

/-- A concrete ambient entropy stream for evaluating concrete inputs. -/
def sampleAmb : Nat → ℚ := fun n => mkRat 1 (n + 2)

/-- The seeded generator's state after `n` calls starting from `st`. -/
def lcgIter : Nat → ℚ → ℚ
  | 0, st => st
  | n + 1, st => lcgIter n (lcgStep st)

/-- The values returned by `n` successive calls of the seeded generator
starting from state `st`. -/
def lcgVals : Nat → ℚ → List ℚ
  | 0, _ => []
  | n + 1, st => (lcgStep st / 233280) :: lcgVals n (lcgStep st)

deriving instance DecidableEq for Except

/-- Drawing `n` values while the seeded closure is installed yields exactly
the generator's value sequence and leaves the slot at the iterated state:
no ambient entropy is consumed. -/
theorem drawN_lcg (amb : Nat → ℚ) (n : Nat) (st : ℚ) (σ : WState)
    (h : σ.mathRandom = .lcg st) :
    drawN amb n σ = (lcgVals n st, { σ with mathRandom := .lcg (lcgIter n st) }) := by
  induction n generalizing st σ with
  | zero =>
      obtain ⟨mr, ai, ps, snd⟩ := σ
      simp only [WState.mathRandom] at h
      subst h
      rfl
  | succ n ih =>
      obtain ⟨mr, ai, ps, snd⟩ := σ
      simp only [WState.mathRandom] at h
      subst h
      simp only [drawN, drawRand]
      rw [ih (lcgStep st) _ rfl]
      rfl

/-- Normal form of a seeded `randomizeSound` call: the result depends only
on the engine and the seed — not on the prior state's random source, the
ambient stream, or anything else — and the `Math.random` slot is left
holding the advanced seeded closure. -/
theorem randomizeSound_seeded (E : EngineModel) (amb : Nat → ℚ) (s : ℚ)
    (σ : WState) :
    randomizeSound E amb (some s) σ =
      { mathRandom := .lcg (lcgIter E.nDraws s), ambientIdx := σ.ambientIdx,
        params := E.randFn (lcgVals E.nDraws s),
        sound := some ⟨E.randFn (lcgVals E.nDraws s)⟩ } := by
  obtain ⟨mr, ai, ps, snd⟩ := σ
  simp only [randomizeSound, randomize_params, generate_sound]
  rw [drawN_lcg amb E.nDraws s
    { mathRandom := .lcg s, ambientIdx := ai, params := ps, sound := snd } rfl]

/-- Normal form of an unseeded `randomizeSound` call made while the seeded
closure is (still) installed: it keeps drawing from the seeded generator. -/
theorem randomizeSound_unseeded_lcg (E : EngineModel) (amb : Nat → ℚ)
    (t : ℚ) (σ : WState) (h : σ.mathRandom = .lcg t) :
    randomizeSound E amb none σ =
      { mathRandom := .lcg (lcgIter E.nDraws t), ambientIdx := σ.ambientIdx,
        params := E.randFn (lcgVals E.nDraws t),
        sound := some ⟨E.randFn (lcgVals E.nDraws t)⟩ } := by
  obtain ⟨mr, ai, ps, snd⟩ := σ
  simp only [WState.mathRandom] at h
  subst h
  simp only [randomizeSound, randomize_params, generate_sound]
  rw [drawN_lcg amb E.nDraws t
    { mathRandom := .lcg t, ambientIdx := ai, params := ps, sound := snd } rfl]

/-- Setting a key in the parameter association list makes it look up to
the value just set. -/
theorem lookupKV_setKV_self (k : String) (v : ℚ) (l : List (String × ℚ)) :
    lookupKV k (setKV k v l) = some v := by
  induction l with
  | nil => simp [setKV, lookupKV]
  | cons hd tl ih =>
      obtain ⟨k', v'⟩ := hd
      by_cases h : k' = k
      · simp [setKV, h, lookupKV]
      · simp [setKV, h, lookupKV, ih]

/-- C1: refuted as stated.  After `randomizeSound` with seed 42 returns
(rendering succeeded), the `Math.random` slot still holds the seeded
closure — the ambient source that was in place before the call has not
been restored. -/
theorem claim_C1_counterexample :
    (randomizeSound sampleEngine sampleAmb (some 42)
        (initialState sampleEngine)).mathRandom ≠ MathRandom.ambient := by
  decide

/-- C1 (amended): a seeded `randomizeSound` call leaves the seeded
generator installed in the `Math.random` slot (nothing restores the
ambient source), and a subsequent unseeded operation therefore draws its
values from the continuation of the seeded sequence, regardless of the
ambient stream. -/
theorem claim_C1_amended (E : EngineModel) (amb amb' : Nat → ℚ) (s : ℚ)
    (σ : WState) :
    (randomizeSound E amb (some s) σ).mathRandom = .lcg (lcgIter E.nDraws s) ∧
    (randomizeSound E amb' none (randomizeSound E amb (some s) σ)).params =
      E.randFn (lcgVals E.nDraws (lcgIter E.nDraws s)) := by
  constructor
  · rw [randomizeSound_seeded]
  · rw [randomizeSound_seeded,
      randomizeSound_unseeded_lcg E amb' (lcgIter E.nDraws s) _ rfl]

/-- C2: two seeded `randomizeSound` calls with the same seed yield
identical parameter sets and identical rendered sounds, whatever the
prior states and ambient streams were; the parameters are exactly a fixed
function of the value sequence of the linear-congruential generator
`lcgStep` started from the seed. -/
theorem claim_C2 (E : EngineModel) (amb amb' : Nat → ℚ) (s : ℚ)
    (σ σ' : WState) :
    (randomizeSound E amb (some s) σ).params =
      (randomizeSound E amb' (some s) σ').params ∧
    (randomizeSound E amb (some s) σ).sound =
      (randomizeSound E amb' (some s) σ').sound ∧
    (randomizeSound E amb (some s) σ).params = E.randFn (lcgVals E.nDraws s) := by
  rw [randomizeSound_seeded, randomizeSound_seeded]
  exact ⟨rfl, rfl, rfl⟩

/-- C10: a seed of `0` is seeded like any other value — the guard is
`seed !== undefined`, not truthiness — so the installed slot is the
seeded generator started from 0, and the outcome is deterministic and
repeatable (independent of prior state and ambient stream). -/
theorem claim_C10 (E : EngineModel) (amb amb' : Nat → ℚ) (σ σ' : WState) :
    (randomizeSound E amb (some 0) σ).mathRandom = .lcg (lcgIter E.nDraws 0) ∧
    (randomizeSound E amb (some 0) σ).params =
      (randomizeSound E amb' (some 0) σ').params ∧
    (randomizeSound E amb (some 0) σ).params = E.randFn (lcgVals E.nDraws 0) := by
  rw [randomizeSound_seeded, randomizeSound_seeded]
  exact ⟨rfl, rfl, rfl⟩

/-- C3: refuted as stated.  From a Ready session, `createCustomSound` with
`attackTime = 1/2` followed by the out-of-range `decayTime = 0` does fail
with a ValidationError and leaves the prior current sound unchanged, but
the earlier parameter of the same request has already been applied to the
engine — there is partial application, contradicting "no parameter of the
request is applied to the engine". -/
theorem claim_C3_counterexample :
    (createCustomSound sampleEngine [("attackTime", mkRat 1 2), ("decayTime", 0)]
        ((createCustomSound sampleEngine [("decayTime", mkRat 1 2)]
          (initialState sampleEngine)).1)).2 =
      .error (.validation "decayTime") ∧
    lookupKV "attackTime"
      ((createCustomSound sampleEngine [("attackTime", mkRat 1 2), ("decayTime", 0)]
        ((createCustomSound sampleEngine [("decayTime", mkRat 1 2)]
          (initialState sampleEngine)).1)).1).params = some (mkRat 1 2) ∧
    ((createCustomSound sampleEngine [("attackTime", mkRat 1 2), ("decayTime", 0)]
        ((createCustomSound sampleEngine [("decayTime", mkRat 1 2)]
          (initialState sampleEngine)).1)).1).sound =
      ((createCustomSound sampleEngine [("decayTime", mkRat 1 2)]
          (initialState sampleEngine)).1).sound := by
  decide

/-- C3 (amended): a request whose in-range parameter precedes an
out-of-range one fails with a ValidationError naming the offending field
and leaves the prior current sound unchanged, but the engine's parameter
state has been reset and the preceding parameter of the request has
already been applied to it. -/
theorem claim_C3_amended (E : EngineModel) (σ : WState) (k1 k2 : String)
    (v1 v2 : ℚ)
    (h1 : paramRange k1 ≠ none) (h1v : inRange k1 v1 = true)
    (h2 : paramRange k2 ≠ none) (h2v : inRange k2 v2 = false) :
    (createCustomSound E [(k1, v1), (k2, v2)] σ).2 = .error (.validation k2) ∧
    (createCustomSound E [(k1, v1), (k2, v2)] σ).1.sound = σ.sound ∧
    lookupKV k1 (createCustomSound E [(k1, v1), (k2, v2)] σ).1.params =
      some v1 := by
  cases hp1 : paramRange k1 with
  | none => exact absurd hp1 h1
  | some r1 =>
    cases hp2 : paramRange k2 with
    | none => exact absurd hp2 h2
    | some r2 =>
      simp only [createCustomSound, reset_params, applyParams, set_param,
        hp1, hp2, h1v, h2v, if_true, if_false, Bool.false_eq_true]
      exact ⟨trivial, trivial, lookupKV_setKV_self k1 v1 E.defaults⟩

/-- C3 (witness): the amended statement evaluated on the concrete request
`attackTime = 1/2, decayTime = 0` from a fresh session. -/
theorem claim_C3_witness :
    (paramRange "attackTime" ≠ none ∧ inRange "attackTime" (mkRat 1 2) = true ∧
     paramRange "decayTime" ≠ none ∧ inRange "decayTime" (0 : ℚ) = false) ∧
    ((createCustomSound sampleEngine [("attackTime", mkRat 1 2), ("decayTime", 0)]
        (initialState sampleEngine)).2 = .error (.validation "decayTime") ∧
     (createCustomSound sampleEngine [("attackTime", mkRat 1 2), ("decayTime", 0)]
        (initialState sampleEngine)).1.sound = (initialState sampleEngine).sound ∧
     lookupKV "attackTime"
       (createCustomSound sampleEngine [("attackTime", mkRat 1 2), ("decayTime", 0)]
         (initialState sampleEngine)).1.params = some (mkRat 1 2)) :=
  ⟨⟨by decide, by decide, by decide, by decide⟩,
   claim_C3_amended sampleEngine (initialState sampleEngine)
     "attackTime" "decayTime" (mkRat 1 2) 0
     (by decide) (by decide) (by decide) (by decide)⟩

/-- C6: refuted as stated.  From a Ready session whose engine parameters
differ from the baseline, `generateSoundEffect` with the unrecognized type
`thunder` fails with the Unknown-sound-type error and leaves the current
sound unchanged, but the engine's parameter state has been modified by the
failed call (`reset_params` runs before the type is checked). -/
theorem claim_C6_counterexample :
    (generateSoundEffect sampleEngine "thunder" []
        ((createCustomSound sampleEngine [("decayTime", mkRat 1 2)]
          (initialState sampleEngine)).1)).2 =
      .error (.unknownSoundType "thunder") ∧
    ((generateSoundEffect sampleEngine "thunder" []
        ((createCustomSound sampleEngine [("decayTime", mkRat 1 2)]
          (initialState sampleEngine)).1)).1).params ≠
      ((createCustomSound sampleEngine [("decayTime", mkRat 1 2)]
          (initialState sampleEngine)).1).params := by
  decide

/-- C6 (amended): an unrecognized type makes `generateSoundEffect` fail
with the Unknown-sound-type error, with no parameter applied and the
current sound unchanged — but only after the engine's parameter state has
already been reset to its baseline. -/
theorem claim_C6_amended (E : EngineModel) (type : String)
    (custom : List (String × ℚ)) (σ : WState) (h : presetFor type = none) :
    generateSoundEffect E type custom σ =
      ({ σ with params := E.defaults }, .error (.unknownSoundType type)) := by
  unfold generateSoundEffect reset_params
  rw [h]

/-- C6 (witness): the amended statement evaluated on the unrecognized type
`thunder` from a fresh session. -/
theorem claim_C6_witness :
    presetFor "thunder" = none ∧
    generateSoundEffect sampleEngine "thunder" [] (initialState sampleEngine) =
      ({ initialState sampleEngine with params := sampleEngine.defaults },
       .error (.unknownSoundType "thunder")) :=
  ⟨rfl, claim_C6_amended sampleEngine "thunder" [] (initialState sampleEngine) rfl⟩

/-- C7: refuted as stated.  A Ready session whose current sound was
rendered from a parameter set with `frequency_start = 7/10` undergoes a
later failed `generateSoundEffect` (unknown type): `getCurrentParameters`
— what `get_parameters` reports — now returns the engine's live (reset)
parameter state, not the parameter set the current sound was rendered
from. -/
theorem claim_C7_counterexample :
    ((generateSoundEffect sampleEngine "nosuch" []
        ((generateSoundEffect sampleEngine "laser" [("frequency_start", mkRat 7 10)]
          (initialState sampleEngine)).1)).1).sound =
      some ⟨[("waveType", 0), ("frequency_start", mkRat 7 10), ("frequency_slide", 0),
             ("attackTime", 0), ("sustainTime", mkRat 1 10), ("decayTime", mkRat 2 5),
             ("vibratoDepth", 0), ("vibratoSpeed", 0)]⟩ ∧
    getCurrentParameters
        ((generateSoundEffect sampleEngine "nosuch" []
          ((generateSoundEffect sampleEngine "laser" [("frequency_start", mkRat 7 10)]
            (initialState sampleEngine)).1)).1) ≠
      [("waveType", 0), ("frequency_start", mkRat 7 10), ("frequency_slide", 0),
       ("attackTime", 0), ("sustainTime", mkRat 1 10), ("decayTime", mkRat 2 5),
       ("vibratoDepth", 0), ("vibratoSpeed", 0)] := by
  decide

/-- C7 (amended): `getCurrentParameters` is a read-only projection of the
engine's live parameter state; immediately after a successful generation
that live state is exactly the parameter set the current sound was
rendered from, but a later failed operation can change it (see the
counterexample). -/
theorem claim_C7_amended (E : EngineModel) (type : String)
    (custom : List (String × ℚ)) (σ σ' : WState)
    (h : generateSoundEffect E type custom σ = (σ', .ok ())) :
    getCurrentParameters σ' = σ'.params ∧ σ'.sound = some ⟨σ'.params⟩ := by
  unfold generateSoundEffect at h
  split at h
  · exact absurd (congrArg Prod.snd h) (by simp)
  · simp only [reset_params] at h
    split at h
    · exact absurd (congrArg Prod.snd h) (by simp)
    · have hσ := congrArg Prod.fst h
      subst hσ
      exact ⟨rfl, rfl⟩

/-- C7 (witness): the amended statement evaluated right after a
successful `laser` generation with a `frequency_start` override. -/
theorem claim_C7_witness :
    generateSoundEffect sampleEngine "laser" [("frequency_start", mkRat 7 10)]
        (initialState sampleEngine) =
      (⟨.ambient, 0,
        [("waveType", 0), ("frequency_start", mkRat 7 10), ("frequency_slide", 0),
         ("attackTime", 0), ("sustainTime", mkRat 1 10), ("decayTime", mkRat 2 5),
         ("vibratoDepth", 0), ("vibratoSpeed", 0)],
        some ⟨[("waveType", 0), ("frequency_start", mkRat 7 10), ("frequency_slide", 0),
         ("attackTime", 0), ("sustainTime", mkRat 1 10), ("decayTime", mkRat 2 5),
         ("vibratoDepth", 0), ("vibratoSpeed", 0)]⟩⟩, .ok ()) ∧
    (getCurrentParameters
        (⟨.ambient, 0,
          [("waveType", 0), ("frequency_start", mkRat 7 10), ("frequency_slide", 0),
           ("attackTime", 0), ("sustainTime", mkRat 1 10), ("decayTime", mkRat 2 5),
           ("vibratoDepth", 0), ("vibratoSpeed", 0)],
          some ⟨[("waveType", 0), ("frequency_start", mkRat 7 10), ("frequency_slide", 0),
           ("attackTime", 0), ("sustainTime", mkRat 1 10), ("decayTime", mkRat 2 5),
           ("vibratoDepth", 0), ("vibratoSpeed", 0)]⟩⟩ : WState) =
      (⟨.ambient, 0,
        [("waveType", 0), ("frequency_start", mkRat 7 10), ("frequency_slide", 0),
         ("attackTime", 0), ("sustainTime", mkRat 1 10), ("decayTime", mkRat 2 5),
         ("vibratoDepth", 0), ("vibratoSpeed", 0)],
        some ⟨[("waveType", 0), ("frequency_start", mkRat 7 10), ("frequency_slide", 0),
         ("attackTime", 0), ("sustainTime", mkRat 1 10), ("decayTime", mkRat 2 5),
         ("vibratoDepth", 0), ("vibratoSpeed", 0)]⟩⟩ : WState).params ∧
     (⟨.ambient, 0,
        [("waveType", 0), ("frequency_start", mkRat 7 10), ("frequency_slide", 0),
         ("attackTime", 0), ("sustainTime", mkRat 1 10), ("decayTime", mkRat 2 5),
         ("vibratoDepth", 0), ("vibratoSpeed", 0)],
        some ⟨[("waveType", 0), ("frequency_start", mkRat 7 10), ("frequency_slide", 0),
         ("attackTime", 0), ("sustainTime", mkRat 1 10), ("decayTime", mkRat 2 5),
         ("vibratoDepth", 0), ("vibratoSpeed", 0)]⟩⟩ : WState).sound =
      some ⟨(⟨.ambient, 0,
        [("waveType", 0), ("frequency_start", mkRat 7 10), ("frequency_slide", 0),
         ("attackTime", 0), ("sustainTime", mkRat 1 10), ("decayTime", mkRat 2 5),
         ("vibratoDepth", 0), ("vibratoSpeed", 0)],
        some ⟨[("waveType", 0), ("frequency_start", mkRat 7 10), ("frequency_slide", 0),
         ("attackTime", 0), ("sustainTime", mkRat 1 10), ("decayTime", mkRat 2 5),
         ("vibratoDepth", 0), ("vibratoSpeed", 0)]⟩⟩ : WState).params⟩) :=
  ⟨by decide,
   claim_C7_amended sampleEngine "laser" [("frequency_start", mkRat 7 10)]
     (initialState sampleEngine) _ (by decide)⟩

/-- C4: refuted as stated.  In the Empty session state, `export_wav`
replies with the specific guidance text ("generate a sound first"), but
the response is a plain success-shaped response — its `isError` flag is
absent (false), so the failure is not surfaced as an error response as
the claim requires. -/
theorem claim_C4_counterexample :
    (handleToolCall sampleEngine sampleAmb (.exportTool "/tmp/a.wav")
        (initialState sampleEngine)).2.isError = false ∧
    containsStr (handleToolCall sampleEngine sampleAmb (.exportTool "/tmp/a.wav")
        (initialState sampleEngine)).2.text "generate a sound first" = true := by
  decide

/-- C4 (amended): in the Empty state, `export_wav` returns a non-error
response whose text is exactly the guidance message, leaving the state
untouched; `get_parameters` performs no Empty-state check at all — its
response is unchanged by erasing the current sound — so it never produces
the guidance message on an empty session. -/
theorem claim_C4_amended (E : EngineModel) (amb : Nat → ℚ) (fp : String)
    (σ τ : WState) (h : σ.sound = none) :
    handleToolCall E amb (.exportTool fp) σ =
      (σ, ⟨"No sound generated yet. Please generate a sound first.", false⟩) ∧
    (handleToolCall E amb .getParamsTool { τ with sound := none }).2 =
      (handleToolCall E amb .getParamsTool τ).2 := by
  constructor
  · obtain ⟨mr, ai, ps, snd⟩ := σ
    simp only [WState.sound] at h
    subst h
    rfl
  · obtain ⟨mr, ai, ps, snd⟩ := τ
    cases hg : getParamsText ⟨mr, ai, ps, none⟩ with
    | ok m =>
        have hg2 : getParamsText ⟨mr, ai, ps, snd⟩ = .ok m := hg
        simp only [handleToolCall, dispatchBody, hg, hg2]
    | error e =>
        have hg2 : getParamsText ⟨mr, ai, ps, snd⟩ = .error e := hg
        simp only [handleToolCall, dispatchBody, hg, hg2]

/-- C4 (witness): the amended statement evaluated in a fresh (Empty)
session, with the `get_parameters` part evaluated against a Ready state
built by a custom generation. -/
theorem claim_C4_witness :
    (initialState sampleEngine).sound = none ∧
    (handleToolCall sampleEngine sampleAmb (.exportTool "/tmp/out.wav")
        (initialState sampleEngine) =
      (initialState sampleEngine,
       ⟨"No sound generated yet. Please generate a sound first.", false⟩) ∧
     (handleToolCall sampleEngine sampleAmb .getParamsTool
        { (createCustomSound sampleEngine [] (initialState sampleEngine)).1 with
          sound := none }).2 =
      (handleToolCall sampleEngine sampleAmb .getParamsTool
        (createCustomSound sampleEngine [] (initialState sampleEngine)).1).2) :=
  ⟨rfl, claim_C4_amended sampleEngine sampleAmb "/tmp/out.wav"
    (initialState sampleEngine)
    (createCustomSound sampleEngine [] (initialState sampleEngine)).1 rfl⟩

/-- C5: every error raised inside the dispatcher's switch is caught at
the dispatcher boundary and converted into a structured response carrying
`isError: true` and the error's human-readable message; the dispatcher is
a total function, so no operation error escapes it (terminates the
process). -/
theorem claim_C5 (E : EngineModel) (amb : Nat → ℚ) (call : ToolCall)
    (σ : WState) (e : JsError)
    (h : (dispatchBody E amb call σ).2 = .error e) :
    (handleToolCall E amb call σ).2 = ⟨"Error: " ++ e.message, true⟩ ∧
    (handleToolCall E amb call σ).1 = (dispatchBody E amb call σ).1 := by
  unfold handleToolCall
  cases hd : dispatchBody E amb call σ with
  | mk σ' r =>
      rw [hd] at h
      cases r with
      | ok m =>
          have h3 : (Except.ok m : Except JsError String) = .error e := h
          exact Except.noConfusion h3
      | error e' =>
          have h3 : (Except.error e' : Except JsError String) = .error e := h
          injection h3 with h4
          subst h4
          exact ⟨rfl, rfl⟩

/-- C5 (witness): the boundary conversion evaluated on an unrecognized
tool name, whose `Unknown tool` error becomes an `isError: true`
response. -/
theorem claim_C5_witness :
    (dispatchBody sampleEngine sampleAmb (.unknownName "bogus")
        (initialState sampleEngine)).2 = .error (.unknownTool "bogus") ∧
    ((handleToolCall sampleEngine sampleAmb (.unknownName "bogus")
        (initialState sampleEngine)).2 =
      ⟨"Error: " ++ (JsError.unknownTool "bogus").message, true⟩ ∧
     (handleToolCall sampleEngine sampleAmb (.unknownName "bogus")
        (initialState sampleEngine)).1 =
      (dispatchBody sampleEngine sampleAmb (.unknownName "bogus")
        (initialState sampleEngine)).1) :=
  ⟨rfl, claim_C5 sampleEngine sampleAmb (.unknownName "bogus")
    (initialState sampleEngine) (.unknownTool "bogus") rfl⟩

/-- C8: refuted as stated.  `randomize_sound` with the given seed `0`
succeeds, but its summary message does not echo the seed — the echo is
guarded by JS truthiness (`seed ? ... : ''`), and `0` is falsy. -/
theorem claim_C8_counterexample :
    (handleToolCall sampleEngine sampleAmb (.randomizeTool (some 0) "x.wav")
        (initialState sampleEngine)).2 =
      ⟨"Generated random sound!\nSaved to: x.wav\nFile size: 4096 bytes", false⟩ ∧
    containsStr (handleToolCall sampleEngine sampleAmb (.randomizeTool (some 0) "x.wav")
        (initialState sampleEngine)).2.text "seed" = false := by
  decide

/-- C8 (amended): the summary message of a seeded `randomize_sound` echoes
the seed exactly when the seed is truthy (nonzero); a zero seed is given
but not echoed. -/
theorem claim_C8_amended (E : EngineModel) (amb : Nat → ℚ) (s : ℚ)
    (fp : String) (σ : WState) (hs : s ≠ 0) :
    (handleToolCall E amb (.randomizeTool (some s) fp) σ).2 =
      ⟨"Generated " ++ ("random" ++ (" (seed: " ++ toString s ++ ")")) ++
        " sound!\nSaved to: " ++ fp ++ "\nFile size: " ++
        toString (E.encodeLen ⟨E.randFn (lcgVals E.nDraws s)⟩) ++ " bytes",
       false⟩ ∧
    (handleToolCall E amb (.randomizeTool (some 0) fp) σ).2 =
      ⟨"Generated " ++ ("random" ++ "") ++ " sound!\nSaved to: " ++ fp ++
        "\nFile size: " ++
        toString (E.encodeLen ⟨E.randFn (lcgVals E.nDraws 0)⟩) ++ " bytes",
       false⟩ := by
  constructor
  · simp only [handleToolCall, dispatchBody, seedTag, randomizeSound_seeded,
      saveWavFile]
    rw [if_pos hs]
  · simp only [handleToolCall, dispatchBody, seedTag, randomizeSound_seeded,
      saveWavFile]
    rw [if_neg (by simp : ¬((0:ℚ) ≠ 0))]

/-- C8 (witness): the amended statement evaluated at seed 42 (echoed) and
seed 0 (not echoed). -/
theorem claim_C8_witness :
    (42 : ℚ) ≠ 0 ∧
    ((handleToolCall sampleEngine sampleAmb (.randomizeTool (some 42) "x.wav")
        (initialState sampleEngine)).2 =
      ⟨"Generated " ++ ("random" ++ (" (seed: " ++ toString (42:ℚ) ++ ")")) ++
        " sound!\nSaved to: " ++ "x.wav" ++ "\nFile size: " ++
        toString (sampleEngine.encodeLen
          ⟨sampleEngine.randFn (lcgVals sampleEngine.nDraws 42)⟩) ++ " bytes",
       false⟩ ∧
     (handleToolCall sampleEngine sampleAmb (.randomizeTool (some 0) "x.wav")
        (initialState sampleEngine)).2 =
      ⟨"Generated " ++ ("random" ++ "") ++ " sound!\nSaved to: " ++ "x.wav" ++
        "\nFile size: " ++
        toString (sampleEngine.encodeLen
          ⟨sampleEngine.randFn (lcgVals sampleEngine.nDraws 0)⟩) ++ " bytes",
       false⟩) :=
  ⟨by decide, claim_C8_amended sampleEngine sampleAmb 42 "x.wav"
    (initialState sampleEngine) (by decide)⟩

/-- C9: `list_presets` returns the static catalog of exactly 7 presets —
their names being pickup, laser, explosion, powerup, hit, jump, blip, and
the laser entry carrying the description "Laser/Shoot sounds" — and the
dispatcher's `list_presets` case succeeds in any session state without
changing it. -/
theorem claim_C9 (E : EngineModel) (amb : Nat → ℚ) (σ : WState) :
    getPresets.length = 7 ∧
    (⟨"laser", "Laser/Shoot sounds"⟩ : PresetInfo) ∈ getPresets ∧
    getPresets.map PresetInfo.name =
      ["pickup", "laser", "explosion", "powerup", "hit", "jump", "blip"] ∧
    (handleToolCall E amb .listPresetsTool σ).1 = σ ∧
    (handleToolCall E amb .listPresetsTool σ).2.isError = false := by
  exact ⟨rfl, by decide, rfl, rfl, rfl⟩

end Bfxr2Mcp
